import Mathlib

/-!
Verification of the agent core of the YJS demo application (`agents.py`).

The embedding models:
  * the lazily-initialised OpenAI configuration (`ensure_openai_configured`
    and the module-level globals `_openai_configured`, `_api_key_valid`,
    `openai.api_key`) as an explicit state-transition function;
  * the chat-completion endpoint (`openai.chat.completions.create`) as a
    stub function from a request to an outcome (returned text or a raised
    exception, the latter carrying `str(e)`);
  * every public operation of the six agent facades, returning its Python
    result value together with the list of chat-completion requests it
    issued (so that call counts and forwarded messages are observable);
  * the agent factory `get_agent`, whose `raise ValueError(...)` is
    modelled as `Except.error`.

Numeric inputs of `calculate_roi` are modelled as naturals: the UI invokes
it with integer slider values, and Python's `{x:,.0f}` format on an
integral value is comma-grouped decimal notation, modelled by
`pyThousands`.
-/

/-- `pat` is an initial segment of `text` (on character lists). -/
def leadMatch : List Char → List Char → Bool
  | [], _ => true
  | _ :: _, [] => false
  | a :: as, b :: bs => a == b && leadMatch as bs

/-- `pat` occurs as a contiguous segment of `text` (on character lists). -/
def hasSub (pat : List Char) : List Char → Bool
  | [] => leadMatch pat []
  | b :: bs => leadMatch pat (b :: bs) || hasSub pat bs

/-- Python `pat in s` on strings: `pat` occurs as a substring of `s`. -/
def strContains (s pat : String) : Bool :=
  hasSub pat.data s.data

/-- One `{"role": ..., "content": ...}` message sent to the chat API. -/
structure Msg where
  role : String
  content : String
deriving DecidableEq, Repr

/-- One request issued to `openai.chat.completions.create`: the model
identifier, the message list and `max_tokens` (temperature is the
constant 0.7 on every call and is omitted). -/
structure ChatRequest where
  model : String
  messages : List Msg
  max_tokens : Nat
deriving DecidableEq, Repr

/-- Outcome of one stubbed `openai.chat.completions.create` call: either
the first completion's text, or a raised exception carrying `str(e)`. -/
inductive ChatOutcome where
  | ok (text : String)
  | raised (e : String)
deriving DecidableEq, Repr

/-- A gateway stub: deterministic behaviour of the chat-completion
endpoint as a function of the request. -/
abbrev Gateway := ChatRequest → ChatOutcome

/-- Python's default whitespace class for `str.strip()`. -/
def pyIsSpace (c : Char) : Bool :=
  c == ' ' || c == '\t' || c == '\n' || c == '\r' || c == '\x0b' || c == '\x0c'

/-- Python `s.strip()`: the text with leading and trailing whitespace
removed. -/
def pyStrip (s : String) : String :=
  String.mk (((s.data.dropWhile pyIsSpace).reverse.dropWhile pyIsSpace).reverse)

/-- Python truthiness of `openai.api_key` being falsy in
`if not openai.api_key:`: the key is `None` or the empty string. -/
def pyFalsyStr : Option String → Bool
  | none => true
  | some s => s == ""

/-- The module-level mutable state of `agents.py`:
`_openai_configured`, `_api_key_valid` and the library global
`openai.api_key` (initially `None`). -/
structure OpenAIModuleState where
  openai_configured : Bool
  api_key_valid : Bool
  openai_api_key : Option String
deriving DecidableEq, Repr

/-- The state at module import: both flags false, `openai.api_key = None`. -/
def initModuleState : OpenAIModuleState :=
  { openai_configured := false, api_key_valid := false, openai_api_key := none }

/-- Outcome of `st.secrets.get("OPENAI_API_KEY")`: the value (possibly
absent), or a raised exception (caught inside `ensure_openai_configured`). -/
inductive SecretsOutcome where
  | got (key : Option String)
  | raised (e : String)
deriving DecidableEq, Repr

/-- `ensure_openai_configured()`: returns `_api_key_valid` and the updated
module state.  On the first call it resolves the secret; a present key
that is truthy and has a non-blank `strip()` is stored into
`openai.api_key` and validates the configuration; any other outcome
(absent, blank, or a raised exception) marks the key invalid.  Later
calls return the cached flag unchanged. -/
def ensure_openai_configured (secrets : SecretsOutcome)
    (s : OpenAIModuleState) : Bool × OpenAIModuleState :=
  if s.openai_configured then
    (s.api_key_valid, s)
  else
    let s' :=
      match secrets with
      | .got (some k) =>
          if k ≠ "" ∧ pyStrip k ≠ "" then
            { openai_configured := true, api_key_valid := true,
              openai_api_key := some k }
          else
            { s with openai_configured := true, api_key_valid := false }
      | .got none =>
          { s with openai_configured := true, api_key_valid := false }
      | .raised _ =>
          { s with openai_configured := true, api_key_valid := false }
    (s'.api_key_valid, s')

/-- The module state after a sequence of `ensure_openai_configured` calls
starting at import time. -/
def runEnsure (trace : List SecretsOutcome) : OpenAIModuleState :=
  trace.foldl (fun s sec => (ensure_openai_configured sec s).2) initModuleState

/-- `"⚠️ Error: OpenAI API key not configured. Please add OPENAI_API_KEY to .streamlit/secrets.toml"` -/
def msgNotConfigured : String :=
  "⚠️ Error: OpenAI API key not configured. Please add OPENAI_API_KEY to .streamlit/secrets.toml"

/-- `"⚠️ Error: OpenAI API key is empty"` -/
def msgEmptyKey : String := "⚠️ Error: OpenAI API key is empty"

/-- `"⚠️ Error: Invalid or missing OpenAI API key. Please check .streamlit/secrets.toml"` -/
def msgAuthError : String :=
  "⚠️ Error: Invalid or missing OpenAI API key. Please check .streamlit/secrets.toml"

/-- Python `s.lower()` (character-wise lowercasing of the text). -/
def pyLower (s : String) : String :=
  String.mk (s.data.map Char.toLower)

/-- The authentication-class test of `AgentBase.call_llm`'s exception
handler: `"api_key" in error_msg.lower() or "authentication" in
error_msg.lower()`. -/
def isAuthError (error_msg : String) : Bool :=
  strContains (pyLower error_msg) "api_key" || strContains (pyLower error_msg) "authentication"

/-- `AgentBase.call_llm(prompt, system_prompt, max_tokens)` for an agent
whose `self.model` is `model`, given the post-`ensure` configuration
flag `valid` and module key `apiKey`.  Returns the string result and the
list of chat-completion requests issued (empty on the early returns). -/
def call_llm (valid : Bool) (apiKey : Option String) (gw : Gateway)
    (model : String) (prompt : String) (system_prompt : String)
    (max_tokens : Nat) : String × List ChatRequest :=
  if !valid then
    (msgNotConfigured, [])
  else if pyFalsyStr apiKey then
    (msgEmptyKey, [])
  else
    let req : ChatRequest :=
      { model := model,
        messages := [{ role := "system", content := system_prompt },
                     { role := "user", content := prompt }],
        max_tokens := max_tokens }
    match gw req with
    | .ok t => (t, [req])
    | .raised e =>
        (if isAuthError e then msgAuthError else "Error: " ++ e, [req])

/-- Python `{n:,.0f}` on an integral value: decimal digits grouped in
threes by commas, processed from the least-significant digit
(reversed digit list). -/
def groupRev : List Char → List Char
  | a :: b :: c :: d :: rest => a :: b :: c :: ',' :: groupRev (d :: rest)
  | l => l

/-- Comma-grouped decimal rendering of a natural, as Python's `{n:,.0f}`
produces for an integral value. -/
def pyThousands (n : Nat) : String :=
  String.mk ((groupRev (toString n).data.reverse).reverse)

/-- `AgentBase`: the name and default model an agent is constructed with. -/
structure AgentBase where
  name : String
  model : String
deriving DecidableEq, Repr

/-- `DataResearchAgent()`: `AgentBase("Data/Research Agent", "gpt-4o-mini")`. -/
def dataResearchAgent : AgentBase := ⟨"Data/Research Agent", "gpt-4o-mini"⟩

/-- `EngagementAgent()`: `AgentBase("Engagement Agent", "gpt-4o-mini")`. -/
def engagementAgent : AgentBase := ⟨"Engagement Agent", "gpt-4o-mini"⟩

/-- `DiscoveryAgent()`: `AgentBase("Discovery Agent", "gpt-4-turbo")`. -/
def discoveryAgent : AgentBase := ⟨"Discovery Agent", "gpt-4-turbo"⟩

/-- `SynthesisAgent()`: `AgentBase("Synthesis Agent", "gpt-4-turbo")`. -/
def synthesisAgent : AgentBase := ⟨"Synthesis Agent", "gpt-4-turbo"⟩

/-- `ProjectDeliveryAgent()`: `AgentBase("Project/Delivery Agent", "gpt-4o-mini")`. -/
def projectDeliveryAgent : AgentBase := ⟨"Project/Delivery Agent", "gpt-4o-mini"⟩

/-- `OrchestratorAgent()`: `AgentBase("Orchestrator Agent", "gpt-4-turbo")`. -/
def orchestratorAgent : AgentBase := ⟨"Orchestrator Agent", "gpt-4-turbo"⟩

/-- Result of `DataResearchAgent.enrich_company`. -/
structure EnrichResult where
  company_name : String
  profile : String
  model_used : String
  timestamp : String
deriving DecidableEq, Repr

/-- The prompt of `enrich_company`. -/
def enrich_company_prompt (company_name : String) : String :=
  s!"Provide a concise company profile for {company_name}. Include:
        1. Industry and sector
        2. Estimated company size
        3. Key business focus
        4. Potential pain points
        
        Be realistic and factual."

/-- `DataResearchAgent.enrich_company(company_name)`.  `now` is the value
of `datetime.now().isoformat()` at the moment of the call. -/
def enrich_company (valid : Bool) (apiKey : Option String) (gw : Gateway)
    (company_name : String) (now : String) : EnrichResult × List ChatRequest :=
  let system_prompt := "You are a company research specialist. Provide accurate company information."
  let r := call_llm valid apiKey gw dataResearchAgent.model
    (enrich_company_prompt company_name) system_prompt 1000
  ({ company_name := company_name, profile := r.1,
     model_used := dataResearchAgent.model, timestamp := now }, r.2)

/-- Result of `DataResearchAgent.screen_pii`. -/
structure ScreenPiiResult where
  text_sample : String
  analysis : String
  model_used : String
deriving DecidableEq, Repr

/-- The prompt of `screen_pii`. -/
def screen_pii_prompt (text : String) : String :=
  s!"Analyze this text for PII (personally identifiable information):

{text}

List any PII found and rate GDPR compliance risk (low/medium/high)."

/-- `DataResearchAgent.screen_pii(text)`: note the echoed sample is
`text[:100] + "..."` when the text exceeds 100 characters. -/
def screen_pii (valid : Bool) (apiKey : Option String) (gw : Gateway)
    (text : String) : ScreenPiiResult × List ChatRequest :=
  let r := call_llm valid apiKey gw dataResearchAgent.model
    (screen_pii_prompt text) "You are a GDPR compliance specialist." 1000
  ({ text_sample := if text.length > 100 then text.take 100 ++ "..." else text,
     analysis := r.1, model_used := dataResearchAgent.model }, r.2)

/-- Result of `EngagementAgent.qualify_lead`. -/
structure QualifyLeadResult where
  company : String
  bant_analysis : String
  model_used : String
deriving DecidableEq, Repr

/-- The prompt of `qualify_lead`. -/
def qualify_lead_prompt (company budget timeline : String) : String :=
  s!"Qualify this lead using BANT framework:
        
Company: {company}
Budget: {budget}
Timeline: {timeline}

Provide:
1. BANT score (0-10)
2. Qualified status (Yes/No/Maybe)
3. Key risks or opportunities
4. Recommendation"

/-- `EngagementAgent.qualify_lead(company, budget, timeline)`. -/
def qualify_lead (valid : Bool) (apiKey : Option String) (gw : Gateway)
    (company budget timeline : String) : QualifyLeadResult × List ChatRequest :=
  let r := call_llm valid apiKey gw engagementAgent.model
    (qualify_lead_prompt company budget timeline)
    "You are a sales qualification specialist." 1000
  ({ company := company, bant_analysis := r.1,
     model_used := engagementAgent.model }, r.2)

/-- Result of `EngagementAgent.generate_email`. -/
structure GenerateEmailResult where
  recipient : String
  email : String
  model_used : String
deriving DecidableEq, Repr

/-- The prompt of `generate_email`. -/
def generate_email_prompt (company contact_name : String) : String :=
  s!"Write a professional outreach email to {contact_name} at {company} about:

\"We help mid-market companies implement AI-driven consulting solutions that reduce costs by 70%\"

Make it personalized but concise (200 words max)."

/-- `EngagementAgent.generate_email(company, contact_name)`: the
`recipient` field is the formatted string `f"{contact_name} @ {company}"`. -/
def generate_email (valid : Bool) (apiKey : Option String) (gw : Gateway)
    (company contact_name : String) : GenerateEmailResult × List ChatRequest :=
  let r := call_llm valid apiKey gw engagementAgent.model
    (generate_email_prompt company contact_name)
    "You are a B2B sales professional." 1000
  ({ recipient := s!"{contact_name} @ {company}", email := r.1,
     model_used := engagementAgent.model }, r.2)

/-- Result of `DiscoveryAgent.generate_questions`. -/
structure GenerateQuestionsResult where
  context : String
  questions : String
  model_used : String
deriving DecidableEq, Repr

/-- The prompt of `generate_questions`. -/
def generate_questions_prompt (company_context : String) : String :=
  s!"Generate 10 strategic discovery questions for {company_context}

Focus on:
1. Current processes and pain points
2. Technology stack
3. Team structure
4. Budget constraints
5. Success metrics

Format as numbered list with brief context for each."

/-- `DiscoveryAgent.generate_questions(company_context)`. -/
def generate_questions (valid : Bool) (apiKey : Option String) (gw : Gateway)
    (company_context : String) : GenerateQuestionsResult × List ChatRequest :=
  let r := call_llm valid apiKey gw discoveryAgent.model
    (generate_questions_prompt company_context)
    "You are an expert business consultant." 1000
  ({ context := company_context, questions := r.1,
     model_used := discoveryAgent.model }, r.2)

/-- Result of `SynthesisAgent.calculate_roi`. -/
structure CalculateRoiResult where
  investment : String
  roi_analysis : String
  model_used : String
deriving DecidableEq, Repr

/-- The prompt of `calculate_roi` (numerals comma-grouped by `{x:,.0f}`). -/
def calculate_roi_prompt (investment_amount annual_revenue : Nat) : String :=
  s!"Calculate ROI for a £{pyThousands investment_amount} consulting engagement.

Assumptions:
- Client annual revenue: £{pyThousands annual_revenue}
- Implementation period: 6 months
- Benefits realization: 12 months

Provide 3 scenarios:
1. Conservative (20% efficiency gain)
2. Recommended (35% efficiency gain)
3. Aggressive (50% efficiency gain)

For each, show:
- Annual savings
- Payback period
- 3-year ROI %
- Key assumptions"

/-- `SynthesisAgent.calculate_roi(investment_amount, annual_revenue)`
(the Python default for `annual_revenue` is 50000000): the `investment`
field is the formatted string `f"£{investment_amount:,.0f}"`. -/
def calculate_roi (valid : Bool) (apiKey : Option String) (gw : Gateway)
    (investment_amount : Nat) (annual_revenue : Nat) :
    CalculateRoiResult × List ChatRequest :=
  let r := call_llm valid apiKey gw synthesisAgent.model
    (calculate_roi_prompt investment_amount annual_revenue)
    "You are a financial analyst." 1000
  ({ investment := s!"£{pyThousands investment_amount}", roi_analysis := r.1,
     model_used := synthesisAgent.model }, r.2)

/-- Result of `ProjectDeliveryAgent.create_project_plan`. -/
structure ProjectPlanResult where
  project : String
  plan : String
  model_used : String
deriving DecidableEq, Repr

/-- The prompt of `create_project_plan`. -/
def create_project_plan_prompt (project_name scope : String) : String :=
  s!"Create a project delivery plan for: {project_name}

Scope: {scope}

Provide:
1. 5-phase breakdown
2. Timeline (weeks)
3. Key deliverables
4. Resource requirements
5. Risk assessment
6. Success criteria

Format as structured plan."

/-- `ProjectDeliveryAgent.create_project_plan(project_name, scope)`. -/
def create_project_plan (valid : Bool) (apiKey : Option String) (gw : Gateway)
    (project_name scope : String) : ProjectPlanResult × List ChatRequest :=
  let r := call_llm valid apiKey gw projectDeliveryAgent.model
    (create_project_plan_prompt project_name scope)
    "You are a project management expert." 1000
  ({ project := project_name, plan := r.1,
     model_used := projectDeliveryAgent.model }, r.2)

/-- `AgentInfo`: one entry of `OrchestratorAgent._load_agents_info`. -/
structure AgentInfo where
  name : String
  desc : String
  tools : List String
  outputs : List String
deriving DecidableEq, Repr

/-- `OrchestratorAgent._load_agents_info()`: the static agents-info table,
in insertion order. -/
def agents_info : List (String × AgentInfo) :=
  [("data_research",
    { name := "📊 Data/Research",
      desc := "Company enrichment, PII screening, GDPR validation",
      tools := ["Companies House API", "Clearbit", "OpenAI"],
      outputs := ["enriched profiles", "compliance reports", "contact validation"] }),
   ("engagement",
    { name := "🎯 Engagement",
      desc := "BANT qualification, outreach emails, lead scoring",
      tools := ["LinkedIn", "SendGrid", "OpenAI"],
      outputs := ["qualified leads", "personalized outreach", "lead scores"] }),
   ("discovery",
    { name := "🔍 Discovery",
      desc := "Strategic questions, process mapping, compliance",
      tools := ["LinkedIn", "Compliance APIs", "OpenAI GPT-4-turbo"],
      outputs := ["discovery questions", "process maps", "compliance checklists"] }),
   ("synthesis",
    { name := "💡 Synthesis",
      desc := "ROI modeling, 3-scenario planning, business case",
      tools := ["Claude Sonnet", "Financial APIs", "OpenAI GPT-4-turbo"],
      outputs := ["ROI models", "business cases", "financial projections"] }),
   ("project_delivery",
    { name := "📋 Project/Delivery",
      desc := "Timelines, risk assessment, contracts, resource planning",
      tools := ["DocuSign", "AWS S3", "OpenAI"],
      outputs := ["implementation plans", "risk assessments", "resource schedules"] }),
   ("change_comms",
    { name := "📢 Change/Comms",
      desc := "Training plans, communication, adoption tracking",
      tools := ["SendGrid", "OpenAI"],
      outputs := ["training materials", "comms plans", "adoption metrics"] })]

/-- `TaskTemplate`: one entry of `OrchestratorAgent._load_task_templates`. -/
structure TaskTemplate where
  title : String
  description : String
  agents : List String
  process : List String
  duration : String
  effort : String
deriving DecidableEq, Repr

/-- The `"lead_gen"` task template. -/
def tt_lead_gen : TaskTemplate :=
  { title := "Lead Generation Automation",
    description := "Automated prospecting and lead qualification",
    agents := ["data_research", "engagement", "synthesis"],
    process :=
      ["Enrich prospect data (research industry, company profile, pain points)",
       "Qualify leads using BANT framework",
       "Calculate ROI per lead",
       "Generate personalized outreach emails"],
    duration := "3-4 weeks",
    effort := "Medium" }

/-- The `"reception_automation"` task template. -/
def tt_reception_automation : TaskTemplate :=
  { title := "Reception/Intake Automation",
    description := "Automated client intake and appointment scheduling",
    agents := ["discovery", "data_research", "project_delivery"],
    process :=
      ["Map current reception workflow and pain points",
       "Identify automation opportunities (intake forms, data capture)",
       "Screen callers for compliance and qualification",
       "Auto-schedule appointments based on availability",
       "Create implementation roadmap"],
    duration := "4-6 weeks",
    effort := "High" }

/-- The `"full_pipeline"` task template. -/
def tt_full_pipeline : TaskTemplate :=
  { title := "Full Sales Pipeline Automation",
    description := "End-to-end lead generation through deal closure",
    agents := ["data_research", "engagement", "discovery", "synthesis",
               "project_delivery", "change_comms"],
    process :=
      ["Research and enrich prospect database",
       "Engage & qualify inbound leads",
       "Run discovery calls with qualifying prospects",
       "Build ROI case and business proposal",
       "Create implementation plan",
       "Plan change management & training"],
    duration := "8-12 weeks",
    effort := "High" }

/-- The `"compliance_automation"` task template. -/
def tt_compliance_automation : TaskTemplate :=
  { title := "Compliance & Risk Screening",
    description := "Automated compliance checks and risk assessment",
    agents := ["data_research", "discovery"],
    process :=
      ["Screen prospects against compliance databases",
       "Check PII and data protection requirements",
       "Validate regulatory compliance (GDPR, SCA, etc)",
       "Create compliance report and risk assessment"],
    duration := "2-3 weeks",
    effort := "Low" }

/-- `OrchestratorAgent._load_task_templates()`: the static registry, in
insertion order. -/
def task_templates : List (String × TaskTemplate) :=
  [("lead_gen", tt_lead_gen),
   ("reception_automation", tt_reception_automation),
   ("full_pipeline", tt_full_pipeline),
   ("compliance_automation", tt_compliance_automation)]

/-- Python `self.agents_info.get(k)` / `self.agents_info[k]` lookup target. -/
def lookupInfo (k : String) : Option AgentInfo :=
  (agents_info.find? (fun p => p.1 == k)).map (fun p => p.2)

/-- Python `self.task_templates.get(task_name)`. -/
def lookupTemplate (k : String) : Option TaskTemplate :=
  (task_templates.find? (fun p => p.1 == k)).map (fun p => p.2)

/-- `self.agents_info[a]['name']`, raising `KeyError` (whose `str` is the
quoted key) when `a` is not a key of the table. -/
def infoName (a : String) : Except String String :=
  match lookupInfo a with
  | some i => Except.ok i.name
  | none => Except.error s!"\x27{a}\x27"

/-- `sep.join(self.agents_info[a]['name'] for a in agents)`, propagating a
`KeyError` on an unknown agent name. -/
def joinInfoNames (sep : String) (agents : List String) : Except String String := do
  let names ← agents.mapM infoName
  return String.intercalate sep names

/-- The `agents_context` string built inside `OrchestratorAgent.chat`. -/
def agents_context : String :=
  String.intercalate "\n"
    (agents_info.map (fun p => s!"- {p.2.name}: {p.2.desc}"))

/-- One block of the `task_templates_context` string of
`OrchestratorAgent.chat` (a `KeyError` on an unknown agent propagates). -/
def template_context_block (t : TaskTemplate) : Except String String := do
  let names ← joinInfoNames ", " t.agents
  return s!"**{t.title}**\n- Description: {t.description}\n- Agents: {names}\n- Timeline: {t.duration}"

/-- The `task_templates_context` string built inside `OrchestratorAgent.chat`. -/
def task_templates_context_e : Except String String := do
  let blocks ← task_templates.mapM (fun p => template_context_block p.2)
  return String.intercalate "\n\n" blocks

/-- The system prompt of `OrchestratorAgent.chat`, as a function of the
two interpolated context strings.  Characters escaped as `\x23`, `\x2d`
and `\x27` are the hash, hyphen and apostrophe of the source text. -/
def chat_system_prompt (agents_context task_templates_context : String) : String :=
  s!"You are an expert Orchestration Agent for YJS Consulting specializing in helping organizations achieve specific business goals through intelligent agent coordination.

\x23# YOUR ROLE
When users describe a business task or problem, your job is to:
1. **Understand the goal** - What outcome do they want?
2. **Recommend agents** - Which agents should work together?
3. **Explain the process** - How will agents orchestrate to achieve this?
4. **Show ROI/impact** - What efficiency or cost savings will result?
5. **Provide roadmap** - What\x27s the implementation timeline and steps?

\x23# AVAILABLE AGENTS
{agents_context}

\x23# PRE-BUILT TASK SOLUTIONS
{task_templates_context}

\x23# HOW TO RESPOND

\x23## For specific business tasks (e.g., \"How do I automate lead gen and reception?\")

Structure your response as:

\x23## 🎯 Your Goal
[Restate what they want to achieve]

\x23## 🔧 Agent Orchestration
[Explain which agents work together and why]

**Step 1: [Agent Name]**
- What it does: [specific task]
- Input: [what data goes in]
- Output: [what comes out]

**Step 2: [Agent Name]**
- What it does: ...
[Continue for all agents in sequence]

\x23## 📊 Data Flow
[Show how data moves between agents: Agent A → Data → Agent B]

\x23## ⏱️ Timeline
- Phase 1 (Weeks 1-2): [Initial setup]
- Phase 2 (Weeks 3-4): [Execution]
- Phase 3 (Weeks 5+): [Optimization]

\x23## 💰 ROI & Impact
- **Time saved**: [X hours/week per task]
- **Cost reduction**: [X%]
- **Quality improvement**: [specific metrics]
- **Payback period**: [time to ROI]

\x23## 📋 Next Steps
1. [First action]
2. [Second action]
3. [Third action]

\x2d--

\x23# INDUSTRY-SPECIFIC EXAMPLES

\x23## LAW FIRM - Lead Gen & Reception Automation
**User Goal**: \"We want to automate lead generation and reception team tasks\"

**Your Response Flow**:
1. Identify they have 2 separate processes: (a) attracting new clients, (b) handling inbound calls
2. Recommend: Data/Research → Engagement (for lead gen) + Discovery → Project Delivery (for reception automation)
3. Explain agent orchestration:
   - Lead Gen Loop: Data enriches prospects → Engagement qualifies them → ROI calculated
   - Reception Loop: Discovery maps workflow → Project delivery automates intake process
4. Show timeline (weeks per phase) and impact (leads per week, calls handled, etc.)

\x23## E-COMMERCE - Customer Service Automation
**User Goal**: \"Automate customer support and upsell process\"

**Your Response Flow**:
1. Identify they want to reduce support cost while increasing order value
2. Recommend: Data/Research (customer profiling) → Discovery (current support process) → Synthesis (upsell ROI)
3. Explain how agents orchestrate to classify support tickets, identify upsell opportunities, and quantify impact
4. Show time-to-value and customer satisfaction impact

\x23## HEALTHCARE - Patient Intake & Compliance
**User Goal**: \"Automate patient intake while maintaining HIPAA compliance\"

**Your Response Flow**:
1. Identify compliance requirement and intake volume
2. Recommend: Data/Research (HIPAA screening) → Discovery (current process) → Project/Delivery (automation roadmap)
3. Explain how agents work together to ensure zero-risk compliance
4. Show efficiency and error reduction metrics

\x2d--

\x23# IMPORTANT GUIDELINES

✅ **DO:**
- Focus on the TASK the user wants to accomplish
- Explain WHICH AGENTS work together and WHY
- Show HOW agents pass data to each other
- Quantify BUSINESS IMPACT (time, cost, quality)
- Provide clear implementation STEPS and TIMELINE
- Use industry examples if relevant
- Ask clarifying questions if goal is ambiguous

❌ **DON\x27T:**
- Describe agents individually without connecting to their task
- Get too technical about agent internals
- Provide vague answers - be specific about what happens at each step
- Forget to mention timeline and effort required
- Skip the ROI/impact section

\x2d--

\x23# RESPONSE FORMAT

Always structure responses with:
- ### Headings (h3 level)
- **Bold text** for emphasis
- Numbered lists for sequences
- Bullet points for details
- Blank lines between sections

Example task the user might ask:
\"This law firm wants to focus on automating lead gen and reception team. How do I go about doing this?\"

You should respond with the orchestration strategy, not just list agents."

/-- One entry of the `history` argument of `OrchestratorAgent.chat`: a
Python value that may or may not be a dict, with optional `"role"` and
`"content"` keys (values modelled as strings). -/
structure HistEntry where
  is_dict : Bool
  role : Option String
  content : Option String
deriving DecidableEq, Repr

/-- The history filter of `OrchestratorAgent.chat`: an entry is forwarded
exactly when `isinstance(h, dict) and "role" in h and "content" in h`,
as `{"role": h["role"], "content": h["content"]}`. -/
def fwdEntry (h : HistEntry) : Option Msg :=
  if h.is_dict then
    match h.role, h.content with
    | some r, some c => some { role := r, content := c }
    | _, _ => none
  else none

/-- The message list `OrchestratorAgent.chat` passes to the completion
call: the system prompt, the filtered history, then the user message. -/
def chat_messages (system_prompt user_message : String)
    (history : List HistEntry) : List Msg :=
  { role := "system", content := system_prompt }
    :: (history.filterMap fwdEntry ++ [{ role := "user", content := user_message }])

/-- `OrchestratorAgent.chat(user_message, history)`: the returned string
and the chat-completion requests issued.  Its `except` handler returns
`f"I encountered an error: {str(e)}"` for every exception class. -/
def chat (valid : Bool) (gw : Gateway) (user_message : String)
    (history : List HistEntry) : String × List ChatRequest :=
  if !valid then
    ("Error: OpenAI API key not configured", [])
  else
    match task_templates_context_e with
    | .error e => ("I encountered an error: " ++ e, [])
    | .ok ttc =>
        let req : ChatRequest :=
          { model := orchestratorAgent.model,
            messages := chat_messages (chat_system_prompt agents_context ttc)
              user_message history,
            max_tokens := 2000 }
        match gw req with
        | .ok t => (t, [req])
        | .raised e => ("I encountered an error: " ++ e, [req])

/-- The prompt of `OrchestratorAgent.solve_task` for a found template. -/
def solve_task_prompt (title description agents_list company_context : String) : String :=
  s!"You are orchestrating the following task:

**Task**: {title}
**Description**: {description}
**Agent Chain**: {agents_list}

**Company Context**: {company_context}

Provide a detailed implementation plan that includes:

1. **Agent Orchestration Steps** (what each agent does, in sequence)
2. **Data Flow** (how data moves between agents)
3. **Key Outputs** (what gets delivered at each step)
4. **Timeline** (realistic weeks/months)
5. **Resource Requirements** (people, tools, infrastructure)
6. **Expected ROI/Impact** (time saved, cost reduction, quality improvement)
7. **Risks & Mitigation** (what could go wrong, how to prevent)
8. **Success Metrics** (how to measure if it worked)

Be specific and actionable."

/-- `OrchestratorAgent.solve_task(task_name, company_context)`: registry
lookup, the `"Unknown task. Available: ..."` message on a miss, one
completion call on a hit; the `except` handler returns
`f"Error: {str(e)}"`. -/
def solve_task (valid : Bool) (gw : Gateway)
    (task_name company_context : String) : String × List ChatRequest :=
  if !valid then
    ("Error: OpenAI API key not configured", [])
  else
    match lookupTemplate task_name with
    | none =>
        ("Unknown task. Available: "
           ++ String.intercalate ", " (task_templates.map (fun p => p.1)), [])
    | some task =>
        match joinInfoNames " → " task.agents with
        | .error e => ("Error: " ++ e, [])
        | .ok agents_list =>
            let req : ChatRequest :=
              { model := orchestratorAgent.model,
                messages :=
                  [{ role := "system",
                     content := "You are an expert in orchestrating AI agents to solve business problems." },
                   { role := "user",
                     content := solve_task_prompt task.title task.description
                       agents_list company_context }],
                max_tokens := 2000 }
            match gw req with
            | .ok t => (t, [req])
            | .raised e => ("Error: " ++ e, [req])

/-- The prompt of `OrchestratorAgent.recommend_workflow`. -/
def recommend_workflow_prompt (scenario : String) : String :=
  s!"A company has the following business challenge:

{scenario}

Recommend an optimal agent orchestration workflow:

1. **Analysis** - What\x27s the core problem and how do agents solve it?
2. **Agent Selection** - Which agents? In what order? Why?
3. **Orchestration Flow** - Draw the data flow and agent sequence
4. **Timeline** - How long will this take?
5. **Team & Skills** - Who needs to be involved?
6. **Cost Structure** - What will this cost to implement?
7. **Expected Impact** - What metrics will improve?
8. **First 90 Days** - What\x27s the implementation roadmap?

Focus on solving their BUSINESS PROBLEM, not describing agents."

/-- `OrchestratorAgent.recommend_workflow(scenario)`: one completion call,
no registry lookup; the `except` handler returns `f"Error: {str(e)}"`. -/
def recommend_workflow (valid : Bool) (gw : Gateway)
    (scenario : String) : String × List ChatRequest :=
  if !valid then
    ("Error: OpenAI API key not configured", [])
  else
    let req : ChatRequest :=
      { model := orchestratorAgent.model,
        messages :=
          [{ role := "system",
             content := "You are an expert business consultant who designs agent orchestration workflows to solve real problems." },
           { role := "user", content := recommend_workflow_prompt scenario }],
        max_tokens := 2000 }
    match gw req with
    | .ok t => (t, [req])
    | .raised e => ("Error: " ++ e, [req])

/-- The six agent classes the factory `get_agent` can instantiate. -/
inductive AgentClass where
  | data_research
  | engagement
  | discovery
  | synthesis
  | project_delivery
  | orchestrator
deriving DecidableEq, Repr

/-- The dictionary of `get_agent`, key to class. -/
def agentRegistry : List (String × AgentClass) :=
  [("data_research", .data_research),
   ("engagement", .engagement),
   ("discovery", .discovery),
   ("synthesis", .synthesis),
   ("project_delivery", .project_delivery),
   ("orchestrator", .orchestrator)]

/-- `get_agent(agent_type)`: returns an instance of the selected class,
or raises `ValueError(f"Unknown agent: {agent_type}")` (modelled as
`Except.error`) on an unknown key. -/
def get_agent (agent_type : String) : Except String AgentClass :=
  match (agentRegistry.find? (fun p => p.1 == agent_type)).map (fun p => p.2) with
  | some c => Except.ok c
  | none => Except.error ("Unknown agent: " ++ agent_type)

/-! ## Helper lemmas -/

/-- `msgAuthError` starts with `⚠`, while every generic gateway failure
message starts with `E`; the two can never coincide. -/
lemma msgAuthError_ne_generic (e : String) : msgAuthError ≠ "Error: " ++ e := by
  intro h
  have h2 := congrArg (fun s => s.data.head?) h
  simp only [String.data_append] at h2
  simp [msgAuthError] at h2

/-- `ensure_openai_configured` reports exactly the updated
`_api_key_valid` flag. -/
lemma ensure_fst_eq (sec : SecretsOutcome) (s : OpenAIModuleState) :
    (ensure_openai_configured sec s).1
      = (ensure_openai_configured sec s).2.api_key_valid := by
  unfold ensure_openai_configured
  split
  · rfl
  · rcases sec with k | e
    · rcases k with _ | k
      · rfl
      · by_cases hk : k ≠ "" ∧ pyStrip k ≠ "" <;> simp [hk]
    · rfl

/-- The module-state invariant: a validated configuration stores a
non-blank key in `openai.api_key`. -/
def keyValidInv (s : OpenAIModuleState) : Prop :=
  s.api_key_valid = true → ∃ k, s.openai_api_key = some k ∧ pyStrip k ≠ ""

lemma keyValidInv_init : keyValidInv initModuleState := by
  intro h
  simp [initModuleState] at h

lemma keyValidInv_step (sec : SecretsOutcome) (s : OpenAIModuleState)
    (hs : keyValidInv s) :
    keyValidInv (ensure_openai_configured sec s).2 := by
  unfold ensure_openai_configured
  split
  · exact hs
  · rcases sec with k | e
    · rcases k with _ | k
      · intro h; simp at h
      · by_cases hk : k ≠ "" ∧ pyStrip k ≠ ""
        · intro _
          simp [hk]
        · intro h; simp [hk] at h
    · intro h; simp at h

lemma keyValidInv_run (trace : List SecretsOutcome) :
    keyValidInv (runEnsure trace) := by
  have aux : ∀ (l : List SecretsOutcome) (s : OpenAIModuleState), keyValidInv s →
      keyValidInv (l.foldl (fun s sec => (ensure_openai_configured sec s).2) s) := by
    intro l
    induction l with
    | nil => intro s hs; exact hs
    | cons sec rest ih =>
        intro s hs
        exact ih _ (keyValidInv_step sec s hs)
  exact aux trace initModuleState keyValidInv_init

/-! ## Claims -/

/-- C6: when the configuration check reports the API key unconfigured,
each of `solve_task`, `recommend_workflow` and `chat` returns its
`"Error: OpenAI API key not configured"` message and issues zero
chat-completion calls. -/
theorem claim_C6 (gw : Gateway) (task_name company_context scenario um : String)
    (hist : List HistEntry) :
    solve_task false gw task_name company_context
        = ("Error: OpenAI API key not configured", [])
  ∧ recommend_workflow false gw scenario
        = ("Error: OpenAI API key not configured", [])
  ∧ chat false gw um hist
        = ("Error: OpenAI API key not configured", []) :=
  ⟨rfl, rfl, rfl⟩

/-- C9: against a deterministic stub gateway, every facade operation is
deterministic: two calls with identical inputs give result records that
agree on every field, except that `enrich_company`'s `timestamp` simply
echoes the clock reading of its own call. -/
theorem claim_C9 (valid : Bool) (apiKey : Option String) (gw : Gateway)
    (company_name now1 now2 text company budget timeline contact_name
      company_context project_name scope um task_name scenario : String)
    (investment_amount annual_revenue : Nat) (hist : List HistEntry) :
    ((enrich_company valid apiKey gw company_name now1).1.company_name
        = (enrich_company valid apiKey gw company_name now2).1.company_name
      ∧ (enrich_company valid apiKey gw company_name now1).1.profile
        = (enrich_company valid apiKey gw company_name now2).1.profile
      ∧ (enrich_company valid apiKey gw company_name now1).1.model_used
        = (enrich_company valid apiKey gw company_name now2).1.model_used
      ∧ (enrich_company valid apiKey gw company_name now1).1.timestamp = now1
      ∧ (enrich_company valid apiKey gw company_name now2).1.timestamp = now2)
  ∧ screen_pii valid apiKey gw text = screen_pii valid apiKey gw text
  ∧ qualify_lead valid apiKey gw company budget timeline
      = qualify_lead valid apiKey gw company budget timeline
  ∧ generate_email valid apiKey gw company contact_name
      = generate_email valid apiKey gw company contact_name
  ∧ generate_questions valid apiKey gw company_context
      = generate_questions valid apiKey gw company_context
  ∧ calculate_roi valid apiKey gw investment_amount annual_revenue
      = calculate_roi valid apiKey gw investment_amount annual_revenue
  ∧ create_project_plan valid apiKey gw project_name scope
      = create_project_plan valid apiKey gw project_name scope
  ∧ chat valid gw um hist = chat valid gw um hist
  ∧ solve_task valid gw task_name company_context
      = solve_task valid gw task_name company_context
  ∧ recommend_workflow valid gw scenario = recommend_workflow valid gw scenario :=
  ⟨⟨rfl, rfl, rfl, rfl, rfl⟩, rfl, rfl, rfl, rfl, rfl, rfl, rfl, rfl, rfl⟩

/-- C2: `solve_task` on any key outside the four registry keys returns
the enumerated-keys message (which contains all four valid keys) and
issues no chat-completion call, whatever the configuration state. -/
theorem claim_C2 (key company_context : String)
    (hkey : key ∉ ["lead_gen", "reception_automation", "full_pipeline",
                   "compliance_automation"]) :
    (∀ gw : Gateway,
        (solve_task true gw key company_context).1
          = "Unknown task. Available: lead_gen, reception_automation, full_pipeline, compliance_automation"
      ∧ strContains (solve_task true gw key company_context).1 "lead_gen" = true
      ∧ strContains (solve_task true gw key company_context).1 "reception_automation" = true
      ∧ strContains (solve_task true gw key company_context).1 "full_pipeline" = true
      ∧ strContains (solve_task true gw key company_context).1 "compliance_automation" = true)
  ∧ ∀ (valid : Bool) (gw : Gateway), (solve_task valid gw key company_context).2 = [] := by
  simp only [List.mem_cons, List.not_mem_nil, or_false, not_or] at hkey
  obtain ⟨h1, h2, h3, h4⟩ := hkey
  have e1 : ("lead_gen" == key) = false := beq_eq_false_iff_ne.mpr (Ne.symm h1)
  have e2 : ("reception_automation" == key) = false := beq_eq_false_iff_ne.mpr (Ne.symm h2)
  have e3 : ("full_pipeline" == key) = false := beq_eq_false_iff_ne.mpr (Ne.symm h3)
  have e4 : ("compliance_automation" == key) = false := beq_eq_false_iff_ne.mpr (Ne.symm h4)
  have hl : lookupTemplate key = none := by
    simp [lookupTemplate, task_templates, List.find?, e1, e2, e3, e4]
  constructor
  · intro gw
    have hmsg : (solve_task true gw key company_context).1
        = "Unknown task. Available: lead_gen, reception_automation, full_pipeline, compliance_automation" := by
      simp [solve_task, hl]
      rfl
    refine ⟨hmsg, ?_, ?_, ?_, ?_⟩ <;> rw [hmsg] <;> decide
  · intro valid gw
    cases valid
    · rfl
    · simp [solve_task, hl]

/-- C2 witness: the unknown key `"quarterly_reports"`. -/
theorem claim_C2_witness :
    ("quarterly_reports" ∉ ["lead_gen", "reception_automation", "full_pipeline",
        "compliance_automation"])
  ∧ ((∀ gw : Gateway,
        (solve_task true gw "quarterly_reports" "Acme").1
          = "Unknown task. Available: lead_gen, reception_automation, full_pipeline, compliance_automation"
      ∧ strContains (solve_task true gw "quarterly_reports" "Acme").1 "lead_gen" = true
      ∧ strContains (solve_task true gw "quarterly_reports" "Acme").1 "reception_automation" = true
      ∧ strContains (solve_task true gw "quarterly_reports" "Acme").1 "full_pipeline" = true
      ∧ strContains (solve_task true gw "quarterly_reports" "Acme").1 "compliance_automation" = true)
  ∧ ∀ (valid : Bool) (gw : Gateway),
        (solve_task valid gw "quarterly_reports" "Acme").2 = []) :=
  ⟨by decide, claim_C2 "quarterly_reports" "Acme" (by decide)⟩

/-- A valid 101-character input text for `screen_pii`. -/
def longText : String := String.mk (List.replicate 101 'a')

set_option maxRecDepth 4000 in
/-- C3 counterexample: `screen_pii` on a valid 101-character text echoes a
truncated `text_sample` (`text[:100] + "..."`), not the call argument
exactly, even though the stubbed gateway returns a fixed string. -/
theorem claim_C3_counterexample :
    longText.length = 101
  ∧ (screen_pii true (some "sk-test") (fun _ => ChatOutcome.ok "ANALYSIS")
        longText).1.text_sample ≠ longText
  ∧ (screen_pii true (some "sk-test") (fun _ => ChatOutcome.ok "ANALYSIS")
        longText).1.text_sample = String.mk (List.replicate 100 'a') ++ "..." := by
  refine ⟨by decide, ?_, ?_⟩ <;> decide

/-- C3 amended: with valid inputs and a stub gateway returning the fixed
string `s`, each of the seven non-orchestrator facade operations yields a
record whose `model_used` equals that facade's configured default model
and whose response field is `s`; the directly echoed fields
(`company_name`, `company`, `context`, `project`) equal the call
arguments exactly, while `screen_pii` echoes the 100-character truncation
of its text, `generate_email` echoes the formatted
`"{contact_name} @ {company}"` string and `calculate_roi` echoes the
formatted `"£{amount:,.0f}"` string. -/
theorem claim_C3_amended (apiKey : Option String)
    (hkey : pyFalsyStr apiKey = false)
    (s company_name now text company budget timeline contact_name
      company_context project_name scope : String)
    (investment_amount annual_revenue : Nat) :
    (enrich_company true apiKey (fun _ => ChatOutcome.ok s) company_name now).1
        = { company_name := company_name, profile := s,
            model_used := dataResearchAgent.model, timestamp := now }
  ∧ (screen_pii true apiKey (fun _ => ChatOutcome.ok s) text).1
        = { text_sample := if text.length > 100 then text.take 100 ++ "..." else text,
            analysis := s, model_used := dataResearchAgent.model }
  ∧ (qualify_lead true apiKey (fun _ => ChatOutcome.ok s) company budget timeline).1
        = { company := company, bant_analysis := s,
            model_used := engagementAgent.model }
  ∧ (generate_email true apiKey (fun _ => ChatOutcome.ok s) company contact_name).1
        = { recipient := s!"{contact_name} @ {company}", email := s,
            model_used := engagementAgent.model }
  ∧ (generate_questions true apiKey (fun _ => ChatOutcome.ok s) company_context).1
        = { context := company_context, questions := s,
            model_used := discoveryAgent.model }
  ∧ (calculate_roi true apiKey (fun _ => ChatOutcome.ok s) investment_amount
        annual_revenue).1
        = { investment := s!"£{pyThousands investment_amount}", roi_analysis := s,
            model_used := synthesisAgent.model }
  ∧ (create_project_plan true apiKey (fun _ => ChatOutcome.ok s) project_name scope).1
        = { project := project_name, plan := s,
            model_used := projectDeliveryAgent.model } := by
  refine ⟨?_, ?_, ?_, ?_, ?_, ?_, ?_⟩ <;>
    simp [enrich_company, screen_pii, qualify_lead, generate_email,
      generate_questions, calculate_roi, create_project_plan, call_llm, hkey]

/-- C3 witness: the amended claim at concrete inputs. -/
theorem claim_C3_witness :
    pyFalsyStr (some "sk-test") = false
  ∧ ((enrich_company true (some "sk-test") (fun _ => ChatOutcome.ok "FIXED")
        "Acme Ltd" "2024-01-01T00:00:00").1
        = { company_name := "Acme Ltd", profile := "FIXED",
            model_used := dataResearchAgent.model,
            timestamp := "2024-01-01T00:00:00" }
  ∧ (screen_pii true (some "sk-test") (fun _ => ChatOutcome.ok "FIXED") "short").1
        = { text_sample := if ("short" : String).length > 100
              then ("short" : String).take 100 ++ "..." else "short",
            analysis := "FIXED", model_used := dataResearchAgent.model }
  ∧ (qualify_lead true (some "sk-test") (fun _ => ChatOutcome.ok "FIXED")
        "Acme" "£100K-500K" "3-6 months").1
        = { company := "Acme", bant_analysis := "FIXED",
            model_used := engagementAgent.model }
  ∧ (generate_email true (some "sk-test") (fun _ => ChatOutcome.ok "FIXED")
        "Acme" "Jo").1
        = { recipient := s!"Jo @ Acme", email := "FIXED",
            model_used := engagementAgent.model }
  ∧ (generate_questions true (some "sk-test") (fun _ => ChatOutcome.ok "FIXED")
        "a law firm").1
        = { context := "a law firm", questions := "FIXED",
            model_used := discoveryAgent.model }
  ∧ (calculate_roi true (some "sk-test") (fun _ => ChatOutcome.ok "FIXED")
        500000 50000000).1
        = { investment := s!"£{pyThousands 500000}", roi_analysis := "FIXED",
            model_used := synthesisAgent.model }
  ∧ (create_project_plan true (some "sk-test") (fun _ => ChatOutcome.ok "FIXED")
        "CRM rollout" "intake automation").1
        = { project := "CRM rollout", plan := "FIXED",
            model_used := projectDeliveryAgent.model }) :=
  ⟨by decide,
   claim_C3_amended (some "sk-test") (by decide) "FIXED" "Acme Ltd"
     "2024-01-01T00:00:00" "short" "Acme" "£100K-500K" "3-6 months" "Jo"
     "a law firm" "CRM rollout" "intake automation" 500000 50000000⟩

/-- C4 counterexample: a dict history entry with both keys but the role
tag `"other_role"` — not one of `"user"`/`"assistant"` — is forwarded to
the gateway by `chat`, not dropped: the issued request's roles are
`["system", "other_role", "user"]`. -/
theorem claim_C4_counterexample :
    ("other_role" ∉ (["user", "assistant"] : List String))
  ∧ (chat true (fun _ => ChatOutcome.ok "REPLY") "hi"
        [{ is_dict := true, role := some "other_role", content := some "x" }]).2.map
      (fun r => r.messages.map (fun m => m.role)) = [["system", "other_role", "user"]] := by
  constructor
  · decide
  · obtain ⟨ttc, httc⟩ : ∃ t, task_templates_context_e = Except.ok t := ⟨_, rfl⟩
    simp [chat, httc, chat_messages, fwdEntry]

/-- C4 amended: `chat` drops exactly the history entries that are not
dicts or lack a `"role"` or `"content"` key; every dict entry carrying
both keys is forwarded to the gateway with its role tag unchanged, even
when the tag is neither `"user"` nor `"assistant"`. -/
theorem claim_C4_amended (sp um : String) (pre post : List HistEntry)
    (h : HistEntry) :
    (h.is_dict = false ∨ h.role = none ∨ h.content = none →
      chat_messages sp um (pre ++ h :: post) = chat_messages sp um (pre ++ post))
  ∧ (∀ r c, h.is_dict = true → h.role = some r → h.content = some c →
      chat_messages sp um (pre ++ h :: post)
        = { role := "system", content := sp }
            :: (pre.filterMap fwdEntry
                ++ ({ role := r, content := c } :: (post.filterMap fwdEntry
                      ++ [{ role := "user", content := um }])))) := by
  constructor
  · intro hmal
    have hf : fwdEntry h = none := by
      rcases hmal with h1 | h1 | h1 <;> simp [fwdEntry, h1]
    simp [chat_messages, List.filterMap_append, hf]
  · intro r c hd hr hc
    have hf : fwdEntry h = some { role := r, content := c } := by
      simp [fwdEntry, hd, hr, hc]
    simp [chat_messages, List.filterMap_append, hf]

/-- C4 witness: the amended claim at concrete histories — a content-less
entry is dropped, a `"custom"`-role entry is forwarded. -/
theorem claim_C4_witness :
    (chat_messages "SP" "hello"
        [{ is_dict := true, role := some "user", content := none }]
      = chat_messages "SP" "hello" [])
  ∧ (chat_messages "SP" "hello"
        [{ is_dict := true, role := some "custom", content := some "c0" }]
      = [{ role := "system", content := "SP" },
         { role := "custom", content := "c0" },
         { role := "user", content := "hello" }]) := by
  constructor
  · exact (claim_C4_amended "SP" "hello" [] []
      { is_dict := true, role := some "user", content := none }).1
      (Or.inr (Or.inr rfl))
  · exact (claim_C4_amended "SP" "hello" [] []
      { is_dict := true, role := some "custom", content := some "c0" }).2
      "custom" "c0" rfl rfl rfl

/-- C7: a history entry lacking a `"role"` key is excluded from the
messages `chat` passes to the gateway: the message list is the same as
without that entry (system prompt, the forwarded well-formed entries in
order, then the user message), and the requests `chat` issues are
unchanged by the entry's presence. -/
theorem claim_C7 (sp um : String) (pre post : List HistEntry) (h : HistEntry)
    (hrole : h.role = none) :
    chat_messages sp um (pre ++ h :: post)
      = { role := "system", content := sp }
          :: ((pre ++ post).filterMap fwdEntry
              ++ [{ role := "user", content := um }])
  ∧ ∀ (gw : Gateway),
      (chat true gw um (pre ++ h :: post)).2 = (chat true gw um (pre ++ post)).2 := by
  have hf : fwdEntry h = none := by
    simp [fwdEntry, hrole]
  constructor
  · simp [chat_messages, List.filterMap_append, hf]
  · intro gw
    obtain ⟨ttc, httc⟩ : ∃ t, task_templates_context_e = Except.ok t := ⟨_, rfl⟩
    have hm : chat_messages (chat_system_prompt agents_context ttc) um (pre ++ h :: post)
        = chat_messages (chat_system_prompt agents_context ttc) um (pre ++ post) := by
      simp [chat_messages, List.filterMap_append, hf]
    simp [chat, httc, hm]

/-- C7 witness: the claim at a concrete history. -/
theorem claim_C7_witness :
    ((({ is_dict := true, role := none, content := some "orphan" } : HistEntry).role
        = none)
  ∧ (chat_messages "SP" "hi"
        [{ is_dict := true, role := some "user", content := some "q" },
         { is_dict := true, role := none, content := some "orphan" }]
      = [{ role := "system", content := "SP" },
         { role := "user", content := "q" },
         { role := "user", content := "hi" }])) := by
  refine ⟨rfl, ?_⟩
  have h := (claim_C7 "SP" "hi"
    [{ is_dict := true, role := some "user", content := some "q" }] []
    { is_dict := true, role := none, content := some "orphan" } rfl).1
  simpa [fwdEntry] using h

/-- C1 counterexample: `solve_task` (a facade operation) with a raising
gateway whose error text contains the keyword `authentication` returns
the generic `"Error: ..."` message, not the authentication-specific
message of `call_llm`. -/
theorem claim_C1_counterexample :
    isAuthError "authentication failed" = true
  ∧ (solve_task true (fun _ => ChatOutcome.raised "authentication failed")
        "lead_gen" "Acme").1 = "Error: authentication failed"
  ∧ "Error: authentication failed" ≠ msgAuthError := by
  refine ⟨by decide, ?_, by decide⟩
  have hlg : lookupTemplate "lead_gen" = some tt_lead_gen := rfl
  obtain ⟨al, hal⟩ : ∃ s, joinInfoNames " → " tt_lead_gen.agents = Except.ok s :=
    ⟨_, rfl⟩
  simp [solve_task, hlg, hal]

/-- C1 amended: the seven operations that delegate to `call_llm` return
the authentication-specific message on an authentication-class error,
and that message differs from every generic `"Error: ..."` message; the
orchestrator's three operations instead surface their generic handler
messages (`"Error: ..."` or `"I encountered an error: ..."`) whatever
the error class. -/
theorem claim_C1_amended (e : String) (hauth : isAuthError e = true)
    (apiKey : Option String) (hkey : pyFalsyStr apiKey = false)
    (company_name now text company budget timeline contact_name
      company_context project_name scope um scenario cctx : String)
    (amt rev : Nat) (hist : List HistEntry) :
    (enrich_company true apiKey (fun _ => ChatOutcome.raised e)
        company_name now).1.profile = msgAuthError
  ∧ (screen_pii true apiKey (fun _ => ChatOutcome.raised e) text).1.analysis
        = msgAuthError
  ∧ (qualify_lead true apiKey (fun _ => ChatOutcome.raised e)
        company budget timeline).1.bant_analysis = msgAuthError
  ∧ (generate_email true apiKey (fun _ => ChatOutcome.raised e)
        company contact_name).1.email = msgAuthError
  ∧ (generate_questions true apiKey (fun _ => ChatOutcome.raised e)
        company_context).1.questions = msgAuthError
  ∧ (calculate_roi true apiKey (fun _ => ChatOutcome.raised e)
        amt rev).1.roi_analysis = msgAuthError
  ∧ (create_project_plan true apiKey (fun _ => ChatOutcome.raised e)
        project_name scope).1.plan = msgAuthError
  ∧ (∀ e2 : String, msgAuthError ≠ "Error: " ++ e2)
  ∧ (solve_task true (fun _ => ChatOutcome.raised e) "lead_gen" cctx).1
        = "Error: " ++ e
  ∧ (recommend_workflow true (fun _ => ChatOutcome.raised e) scenario).1
        = "Error: " ++ e
  ∧ (chat true (fun _ => ChatOutcome.raised e) um hist).1
        = "I encountered an error: " ++ e := by
  have hlg : lookupTemplate "lead_gen" = some tt_lead_gen := rfl
  obtain ⟨al, hal⟩ : ∃ s, joinInfoNames " → " tt_lead_gen.agents = Except.ok s :=
    ⟨_, rfl⟩
  obtain ⟨ttc, httc⟩ : ∃ t, task_templates_context_e = Except.ok t := ⟨_, rfl⟩
  refine ⟨?_, ?_, ?_, ?_, ?_, ?_, ?_, fun e2 => msgAuthError_ne_generic e2,
    ?_, ?_, ?_⟩
  · simp [enrich_company, call_llm, hkey, hauth]
  · simp [screen_pii, call_llm, hkey, hauth]
  · simp [qualify_lead, call_llm, hkey, hauth]
  · simp [generate_email, call_llm, hkey, hauth]
  · simp [generate_questions, call_llm, hkey, hauth]
  · simp [calculate_roi, call_llm, hkey, hauth]
  · simp [create_project_plan, call_llm, hkey, hauth]
  · simp [solve_task, hlg, hal]
  · simp [recommend_workflow]
  · simp [chat, httc]

/-- C1 witness: the amended claim at the concrete authentication-class
error text `"authentication failed"`. -/
theorem claim_C1_witness :
    isAuthError "authentication failed" = true
  ∧ pyFalsyStr (some "sk-test") = false
  ∧ ((enrich_company true (some "sk-test")
        (fun _ => ChatOutcome.raised "authentication failed")
        "Acme" "T0").1.profile = msgAuthError
    ∧ (screen_pii true (some "sk-test")
        (fun _ => ChatOutcome.raised "authentication failed") "txt").1.analysis
          = msgAuthError
    ∧ (qualify_lead true (some "sk-test")
        (fun _ => ChatOutcome.raised "authentication failed")
        "Acme" "£10K" "Q1").1.bant_analysis = msgAuthError
    ∧ (generate_email true (some "sk-test")
        (fun _ => ChatOutcome.raised "authentication failed")
        "Acme" "Jo").1.email = msgAuthError
    ∧ (generate_questions true (some "sk-test")
        (fun _ => ChatOutcome.raised "authentication failed")
        "a law firm").1.questions = msgAuthError
    ∧ (calculate_roi true (some "sk-test")
        (fun _ => ChatOutcome.raised "authentication failed")
        100 200).1.roi_analysis = msgAuthError
    ∧ (create_project_plan true (some "sk-test")
        (fun _ => ChatOutcome.raised "authentication failed")
        "P" "S").1.plan = msgAuthError
    ∧ (∀ e2 : String, msgAuthError ≠ "Error: " ++ e2)
    ∧ (solve_task true (fun _ => ChatOutcome.raised "authentication failed")
        "lead_gen" "ctx").1 = "Error: " ++ "authentication failed"
    ∧ (recommend_workflow true
        (fun _ => ChatOutcome.raised "authentication failed") "sc").1
          = "Error: " ++ "authentication failed"
    ∧ (chat true (fun _ => ChatOutcome.raised "authentication failed")
        "hi" []).1 = "I encountered an error: " ++ "authentication failed") :=
  ⟨by decide, by decide,
   claim_C1_amended "authentication failed" (by decide) (some "sk-test")
     (by decide) "Acme" "T0" "txt" "Acme" "£10K" "Q1" "Jo" "a law firm" "P" "S"
     "hi" "sc" "ctx" 100 200 []⟩

/-- C5 counterexample: the public factory `get_agent` raises
`ValueError("Unknown agent: nonexistent")` — an exception, not a string
through the normal return channel — on an unknown agent key. -/
theorem claim_C5_counterexample :
    get_agent "nonexistent" = Except.error "Unknown agent: nonexistent"
  ∧ ∀ a : AgentClass, get_agent "nonexistent" ≠ Except.ok a := by
  refine ⟨rfl, ?_⟩
  intro a h
  simp [get_agent, agentRegistry, List.find?] at h

/-- C5 amended: every agent-facade operation surfaces a gateway failure
as a string through its ordinary return channel (never re-raising), and
the unknown-task lookup of `solve_task` likewise returns a displayable
string; the factory `get_agent` is the exception to the policy: it
returns an instance exactly on its six registered keys and raises
`ValueError` on every other key. -/
theorem claim_C5_amended (e : String) (apiKey : Option String)
    (hkey : pyFalsyStr apiKey = false)
    (company_name now um scenario cctx : String) (hist : List HistEntry) :
    (enrich_company true apiKey (fun _ => ChatOutcome.raised e)
        company_name now).1.profile
      = (if isAuthError e then msgAuthError else "Error: " ++ e)
  ∧ (chat true (fun _ => ChatOutcome.raised e) um hist).1
      = "I encountered an error: " ++ e
  ∧ (solve_task true (fun _ => ChatOutcome.raised e) "full_pipeline" cctx).1
      = "Error: " ++ e
  ∧ (recommend_workflow true (fun _ => ChatOutcome.raised e) scenario).1
      = "Error: " ++ e
  ∧ (∀ gw : Gateway,
      (solve_task true gw "no_such_task" cctx).1
        = "Unknown task. Available: lead_gen, reception_automation, full_pipeline, compliance_automation")
  ∧ (∀ k : String,
      k ∈ ["data_research", "engagement", "discovery", "synthesis",
           "project_delivery", "orchestrator"] →
      ∃ a : AgentClass, get_agent k = Except.ok a)
  ∧ (∀ k : String,
      k ∉ ["data_research", "engagement", "discovery", "synthesis",
           "project_delivery", "orchestrator"] →
      get_agent k = Except.error ("Unknown agent: " ++ k)) := by
  have hfp : lookupTemplate "full_pipeline" = some tt_full_pipeline := rfl
  obtain ⟨al, hal⟩ : ∃ s, joinInfoNames " → " tt_full_pipeline.agents = Except.ok s :=
    ⟨_, rfl⟩
  obtain ⟨ttc, httc⟩ : ∃ t, task_templates_context_e = Except.ok t := ⟨_, rfl⟩
  refine ⟨?_, ?_, ?_, ?_, ?_, ?_, ?_⟩
  · simp [enrich_company, call_llm, hkey]
  · simp [chat, httc]
  · simp [solve_task, hfp, hal]
  · simp [recommend_workflow]
  · intro gw
    have hns : lookupTemplate "no_such_task" = none := rfl
    simp [solve_task, hns]
    rfl
  · intro k hk
    fin_cases hk <;> exact ⟨_, rfl⟩
  · intro k hk
    simp only [List.mem_cons, List.not_mem_nil, or_false, not_or] at hk
    obtain ⟨h1, h2, h3, h4, h5, h6⟩ := hk
    have e1 : ("data_research" == k) = false := beq_eq_false_iff_ne.mpr (Ne.symm h1)
    have e2 : ("engagement" == k) = false := beq_eq_false_iff_ne.mpr (Ne.symm h2)
    have e3 : ("discovery" == k) = false := beq_eq_false_iff_ne.mpr (Ne.symm h3)
    have e4 : ("synthesis" == k) = false := beq_eq_false_iff_ne.mpr (Ne.symm h4)
    have e5 : ("project_delivery" == k) = false := beq_eq_false_iff_ne.mpr (Ne.symm h5)
    have e6 : ("orchestrator" == k) = false := beq_eq_false_iff_ne.mpr (Ne.symm h6)
    simp [get_agent, agentRegistry, List.find?, e1, e2, e3, e4, e5, e6]

/-- C5 witness: the amended claim at the concrete error text `"boom"`. -/
theorem claim_C5_witness :
    pyFalsyStr (some "sk-test") = false
  ∧ ((enrich_company true (some "sk-test") (fun _ => ChatOutcome.raised "boom")
        "Acme" "T0").1.profile
      = (if isAuthError "boom" then msgAuthError else "Error: " ++ "boom")
    ∧ (chat true (fun _ => ChatOutcome.raised "boom") "hi" []).1
        = "I encountered an error: " ++ "boom"
    ∧ (solve_task true (fun _ => ChatOutcome.raised "boom") "full_pipeline" "ctx").1
        = "Error: " ++ "boom"
    ∧ (recommend_workflow true (fun _ => ChatOutcome.raised "boom") "sc").1
        = "Error: " ++ "boom"
    ∧ (∀ gw : Gateway,
        (solve_task true gw "no_such_task" "ctx").1
          = "Unknown task. Available: lead_gen, reception_automation, full_pipeline, compliance_automation")
    ∧ (∀ k : String,
        k ∈ ["data_research", "engagement", "discovery", "synthesis",
             "project_delivery", "orchestrator"] →
        ∃ a : AgentClass, get_agent k = Except.ok a)
    ∧ (∀ k : String,
        k ∉ ["data_research", "engagement", "discovery", "synthesis",
             "project_delivery", "orchestrator"] →
        get_agent k = Except.error ("Unknown agent: " ++ k))) :=
  ⟨by decide,
   claim_C5_amended "boom" (some "sk-test") (by decide) "Acme" "T0" "hi" "sc"
     "ctx" []⟩

/-- C8 counterexample: the `full_pipeline` template lists the agent name
`"change_comms"`, which is not one of the six facade identities the
factory can instantiate — `get_agent` raises on it. -/
theorem claim_C8_counterexample :
    "change_comms" ∈ tt_full_pipeline.agents
  ∧ ("full_pipeline", tt_full_pipeline) ∈ task_templates
  ∧ "change_comms" ∉ agentRegistry.map (fun p => p.1)
  ∧ get_agent "change_comms" = Except.error "Unknown agent: change_comms" := by
  refine ⟨by decide, by decide, by decide, rfl⟩

/-- C8 amended: every agent name in every task template's agents list is
a key of the agents-info table (so the prompt interpolations of `chat`
and `solve_task` never fail), though not every such name is one of the
six factory identities. -/
theorem claim_C8_amended (k : String) (t : TaskTemplate)
    (hmem : (k, t) ∈ task_templates) :
    ∀ a ∈ t.agents, (lookupInfo a).isSome = true := by
  fin_cases hmem <;> decide

/-- C8 witness: the amended claim at the `full_pipeline` template. -/
theorem claim_C8_witness :
    (("full_pipeline", tt_full_pipeline) ∈ task_templates)
  ∧ (∀ a ∈ tt_full_pipeline.agents, (lookupInfo a).isSome = true) :=
  ⟨by decide, claim_C8_amended "full_pipeline" tt_full_pipeline (by decide)⟩

/-- C10: after any sequence of `ensure_openai_configured` calls from the
moment of module import, a call that returns `True` leaves a non-blank key in
`openai.api_key`, so the guard `not openai.api_key` of `call_llm`'s
`"API key is empty"` early return is false and with a validated
configuration `call_llm` always reaches the completion call (its request
list is non-empty). -/
theorem claim_C10 (trace : List SecretsOutcome) (sec : SecretsOutcome)
    (hres : (ensure_openai_configured sec (runEnsure trace)).1 = true) :
    (∃ k, (ensure_openai_configured sec (runEnsure trace)).2.openai_api_key = some k
        ∧ pyStrip k ≠ "")
  ∧ pyFalsyStr (ensure_openai_configured sec (runEnsure trace)).2.openai_api_key
      = false
  ∧ ∀ (gw : Gateway) (model prompt system_prompt : String) (max_tokens : Nat),
      (call_llm true
        (ensure_openai_configured sec (runEnsure trace)).2.openai_api_key
        gw model prompt system_prompt max_tokens).2 ≠ [] := by
  have hvalid : (ensure_openai_configured sec (runEnsure trace)).2.api_key_valid = true := by
    rw [← ensure_fst_eq]; exact hres
  have hinv := keyValidInv_step sec (runEnsure trace) (keyValidInv_run trace) hvalid
  obtain ⟨k, hk, hkt⟩ := hinv
  have hkne : k ≠ "" := by
    intro h
    rw [h] at hkt
    exact hkt (by decide)
  have hfalsy : pyFalsyStr (ensure_openai_configured sec (runEnsure trace)).2.openai_api_key
      = false := by
    rw [hk]
    simp [pyFalsyStr, hkne]
  refine ⟨⟨k, hk, hkt⟩, hfalsy, ?_⟩
  intro gw model prompt system_prompt max_tokens
  rw [call_llm]
  simp [hfalsy]
  split <;> simp

/-- C10 witness: one fresh `ensure_openai_configured` call that resolves
the secret to `"sk-test"`. -/
theorem claim_C10_witness :
    ((ensure_openai_configured (SecretsOutcome.got (some "sk-test"))
        (runEnsure [])).1 = true)
  ∧ ((∃ k, (ensure_openai_configured (SecretsOutcome.got (some "sk-test"))
        (runEnsure [])).2.openai_api_key = some k ∧ pyStrip k ≠ "")
    ∧ pyFalsyStr (ensure_openai_configured (SecretsOutcome.got (some "sk-test"))
        (runEnsure [])).2.openai_api_key = false
    ∧ ∀ (gw : Gateway) (model prompt system_prompt : String) (max_tokens : Nat),
        (call_llm true
          (ensure_openai_configured (SecretsOutcome.got (some "sk-test"))
            (runEnsure [])).2.openai_api_key
          gw model prompt system_prompt max_tokens).2 ≠ []) :=
  ⟨by decide,
   claim_C10 [] (SecretsOutcome.got (some "sk-test")) (by decide)⟩
